import Mathlib

/-!
# Verification of the iterative research-and-critique control loop

Shallow embedding of the core control loop of `graph.py`: the sub-question
planner, the concurrent retriever with per-item retry, the summarizer,
the critic, the score-based control decision, the retry strategist and
the orchestrating graph.

Modelling conventions, stated once here:

* The language capability (`llm.invoke`) and the search capability
  (`search_tool.ainvoke`) are external collaborators.  Each invocation is
  modelled as an oracle parameter of type `Except String String`
  (respectively `Except String PyVal`): `Except.ok` is a returned value,
  `Except.error` is a raised exception caught by the surrounding
  `try/except`.  Prompt text is not modelled — no control flow in the
  source depends on it, only on the oracle's answer.
* The mutable Python state dict is the structure `AnalysisState`.  Keys
  that the source reads with `state.get(key, default)` or that may be
  absent are `Option`-valued; keys that are always written before being
  read (`sub_questions`, `search_results`, `summarized_chunks`) are plain
  lists, with the empty list standing for the not-yet-written key.
* Elapsed wall-clock durations (`time.time() - start`) are physical
  quantities; each stage takes its measured duration as an abstract `Nat`
  parameter, since only the keys of `processing_time` carry logical
  content.
* Python dict update `{**d, k: v}` is `dictInsert` (replace the existing
  binding of `k` in place, else append).
-/

/-- A dynamically-typed Python value, as produced by the search capability
(`None`, `str`, `int`, `bool`, `list`, `dict`). -/
inductive PyVal where
  | pynone : PyVal
  | pybool : Bool → PyVal
  | pyint : Int → PyVal
  | pystr : String → PyVal
  | pylist : List PyVal → PyVal
  | pydict : List (String × PyVal) → PyVal
deriving Repr

/-- Python truthiness (`bool(v)`): `None`, `False`, `0`, `""`, `[]`, `{}`
are falsy, everything else truthy. -/
def PyVal.truthy : PyVal → Bool
  | .pynone => false
  | .pybool b => b
  | .pyint n => n != 0
  | .pystr s => s != ""
  | .pylist l => !l.isEmpty
  | .pydict d => !d.isEmpty

/-- Python `"sep".join(parts)`. -/
def joinSep (sep : String) : List String → String
  | [] => ""
  | [x] => x
  | x :: xs => x ++ sep ++ joinSep sep xs

/-- The whitespace set of Python `str.strip()` (ASCII part). -/
def isPySpace (c : Char) : Bool :=
  c == ' ' || c == '\t' || c == '\n' || c == '\r' || c == '\x0b' || c == '\x0c'

/-- Python `s.strip()`. -/
def pyStrip (s : String) : String :=
  ⟨((s.data.dropWhile isPySpace).reverse.dropWhile isPySpace).reverse⟩

/-- Python `s.lower()` (the outputs scanned here are ASCII). -/
def pyLower (s : String) : String := ⟨s.data.map Char.toLower⟩

/-- Prefix test on character lists. -/
def startsWithChars : List Char → List Char → Bool
  | [], _ => true
  | _ :: _, [] => false
  | p :: ps, c :: cs => p == c && startsWithChars ps cs

/-- Python `s.startswith(pre)`. -/
def pyStartsWith (s pre : String) : Bool := startsWithChars pre.data s.data

/-- Python slicing `s[:n]` (by code point, as Python slices by
character). -/
def pyTake (s : String) (n : Nat) : String := ⟨s.data.take n⟩

/-- Split a character list on every occurrence of `sep`
(Python `s.split(sep)` for a one-character separator). -/
def splitOnChar (sep : Char) : List Char → List (List Char)
  | [] => [[]]
  | c :: rest =>
    match splitOnChar sep rest with
    | [] => [[]]
    | h :: t => if c == sep then [] :: h :: t else (c :: h) :: t

/-- Python `s.split("\n")`. -/
def pySplitLines (s : String) : List String :=
  (splitOnChar '\n' s.data).map String.mk

/-- The characters after the first occurrence of `sep`, when present. -/
def afterFirstSep (sep : Char) : List Char → Option (List Char)
  | [] => Option.none
  | c :: rest => if c == sep then some rest else afterFirstSep sep rest

/-- Python `repr` of a value (used inside `str` of containers).  The exact
text is irrelevant to every claim; only totality and the fact that it is
some string matter. -/
def PyVal.pyrepr : PyVal → String
  | .pynone => "None"
  | .pybool b => if b then "True" else "False"
  | .pyint n => toString n
  | .pystr s => "\x27" ++ s ++ "\x27"
  | .pylist l => "[" ++ joinSep ", " (l.attach.map (fun x => x.1.pyrepr)) ++ "]"
  | .pydict d => "\x7b" ++ joinSep ", "
      (d.attach.map (fun x => "\x27" ++ x.1.1 ++ "\x27: " ++ x.1.2.pyrepr)) ++ "\x7d"
decreasing_by
  all_goals simp_wf
  · have := List.sizeOf_lt_of_mem x.2; omega
  · obtain ⟨⟨k, v⟩, hmem⟩ := x
    have := List.sizeOf_lt_of_mem hmem
    simp at this ⊢
    omega

/-- Python `str(v)`: identity on strings, `repr`-like elsewhere. -/
def PyVal.pystr_of : PyVal → String
  | .pystr s => s
  | v => v.pyrepr

/-- Python `d[k]` lookup on an association list standing for a dict
(first binding wins; dict keys are unique). -/
def dictLookupPy (kvs : List (String × PyVal)) (k : String) : Option PyVal :=
  (kvs.find? (fun p => p.1 == k)).map Prod.snd

/-- `line.split(".", 1)[-1]` from the source: everything after the
first `"."`, or the whole string when `"."` is absent. -/
def afterFirstDot (s : String) : String :=
  match afterFirstSep '.' s.data with
  | some rest => String.mk rest
  | Option.none => s

/-- `line.split(":", 1)[1]` from the source; the callers guard that a
colon is present, so the impossible no-colon case returns `""`. -/
def afterFirstColon (s : String) : String :=
  match afterFirstSep ':' s.data with
  | some rest => String.mk rest
  | Option.none => ""

/-- One entry of `search_results`: the dict
`{"question", "result", "attempt"}` on success or
`{"question", "result": None, "error"}` on exhausted retries.
`attempt`/`error` are `Option`-valued because the corresponding dict key
is present in only one of the two shapes. -/
structure SearchEntry where
  question : String
  result : PyVal
  attempt : Option Nat
  error : Option String
deriving Repr

/-- The state dict threaded through the graph (`AnalysisState`). -/
structure AnalysisState where
  user_input : String
  purpose : String
  sub_questions : List String := []
  search_results : List SearchEntry := []
  summarized_chunks : List String := []
  critic_score : Option Int := Option.none
  critic_feedback : Option String := Option.none
  retry_count : Option Int := Option.none
  target_score : Option Int := Option.none
  max_retries : Option Int := Option.none
  processing_time : List (String × Nat) := []
  final_answer : Option String := Option.none
  max_retries_reached : Option Bool := Option.none
deriving Repr

/-- `{**d, k: v}` on the timing dict: replace the first binding of `k`
in place, else append at the end (Python dict keys are unique, so the
first binding is the only one). -/
def dictInsert : List (String × Nat) → String → Nat → List (String × Nat)
  | [], k, v => [(k, v)]
  | p :: rest, k, v =>
    if p.1 == k then (k, v) :: rest else p :: dictInsert rest k v

/-- `d.get(k)` on the timing dict. -/
def dictLookup (pt : List (String × Nat)) (k : String) : Option Nat :=
  (pt.find? (fun p => p.1 == k)).map Prod.snd

/-- One line of the numbered-list parse shared by `plan_subquestions`
and `plan_subquestions_refined`: strip, keep lines that are nonempty and
start with `"1."`/`"2."`/`"3."` or any digit, take the text after the
first period, keep it when nonempty. -/
def parseLine (rawLine : String) : Option String :=
  let line := pyStrip rawLine
  if line != "" && (pyStartsWith line "1." || pyStartsWith line "2." ||
      pyStartsWith line "3." || (line.data.headD 'A').isDigit) then
    let question := pyStrip (afterFirstDot line)
    if question != "" then some question else Option.none
  else Option.none

/-- The numbered-list parse of an LLM output: `output.strip().split("\n")`
filtered through `parseLine`. -/
def parseNumbered (output : String) : List String :=
  (pySplitLines (pyStrip output)).filterMap parseLine

/-- The "ensure we have exactly 3 questions" block: pad with copies of
the original question when fewer than 3 parsed, truncate when more. -/
def ensureThree (qs : List String) (user_input : String) : List String :=
  if qs.length < 3 then qs ++ List.replicate (3 - qs.length) user_input
  else if qs.length > 3 then qs.take 3
  else qs

/-- `plan_subquestions` (graph.py:28-77).  `llmOut` is the outcome of the
single `llm.invoke` call; `dur` the measured elapsed time. -/
def plan_subquestions (llmOut : Except String String) (dur : Nat)
    (s : AnalysisState) : AnalysisState :=
  match llmOut with
  | Except.ok output =>
    { s with
      sub_questions := ensureThree (parseNumbered output) s.user_input,
      processing_time := dictInsert s.processing_time "planning" dur }
  | Except.error _ => { s with sub_questions := [s.user_input] }

/-- The body of `fetch_with_retry`'s `for attempt in range(max_retries + 1)`
loop (graph.py:84-95).  `attempt` is the current attempt index, `rest` the
number of loop iterations still to come after this one (so `rest = 0`
exactly when `attempt == max_retries`, the condition under which the
source returns the error entry instead of retrying). -/
def fetchGo (oracle : Nat → Except String PyVal) (query : String) :
    Nat → Nat → SearchEntry
  | attempt, 0 =>
    match oracle attempt with
    | Except.ok r =>
      { question := query, result := r, attempt := some (attempt + 1),
        error := Option.none }
    | Except.error e =>
      { question := query, result := PyVal.pynone, attempt := Option.none,
        error := some e }
  | attempt, rest + 1 =>
    match oracle attempt with
    | Except.ok r =>
      { question := query, result := r, attempt := some (attempt + 1),
        error := Option.none }
    | Except.error _ => fetchGo oracle query (attempt + 1) rest

/-- `fetch_with_retry(query, max_retries=2)`: `oracle n` is the outcome
of the search call on attempt index `n`. -/
def fetch_with_retry (oracle : Nat → Except String PyVal) (query : String)
    (max_retries : Nat := 2) : SearchEntry :=
  fetchGo oracle query 0 max_retries

/-- `retrieve_each` (graph.py:79-110).  `oracle q n` is the outcome of
the search call for sub-question `q` on attempt `n`; `batchError` is
`some e` when the `asyncio.gather` batch itself raises outside the
per-item handling (the outer `except` branch), `none` when it completes. -/
def retrieve_each (oracle : String → Nat → Except String PyVal)
    (batchError : Option String) (dur : Nat) (s : AnalysisState) :
    AnalysisState :=
  match batchError with
  | some _ => { s with search_results := [] }
  | Option.none =>
    { s with
      search_results := s.sub_questions.map
        (fun q => fetch_with_retry (oracle q) q),
      processing_time := dictInsert s.processing_time "retrieval" dur }

/-- The per-item scan of the extractor's list branch: for a dict item,
the first key among the fixed priority list that is present and truthy
yields `str(value)[:500]`; a string item yields `item[:500]`; any other
item contributes nothing (graph.py:124-132). -/
def firstContentValue (kvs : List (String × PyVal)) : List String → Option PyVal
  | [] => Option.none
  | key :: rest =>
    match dictLookupPy kvs key with
    | some v => if v.truthy then some v else firstContentValue kvs rest
    | Option.none => firstContentValue kvs rest

/-- The contribution of one list item to `content_parts`. -/
def extractPart (item : PyVal) : Option String :=
  match item with
  | PyVal.pydict kvs =>
    (firstContentValue kvs
      ["content", "text", "snippet", "description", "summary"]).map
      (fun v => pyTake v.pystr_of 500)
  | PyVal.pystr s => some (pyTake s 500)
  | _ => Option.none

/-- The list branch of the extractor: first 3 items, each contributing
an at-most-500-character part, joined with `"\n---\n"`. -/
def extractList (items : List PyVal) : String :=
  joinSep "\n---\n" ((items.take 3).filterMap extractPart)

/-- The key scan of the extractor's dict branch (graph.py:138-144).  The
source's recursive call `extract_content_from_search_result(result[key])`
happens only under `isinstance(result[key], list)`, where the callee
dispatches directly to its list branch; that dispatch is inlined here as
`extractList`, which makes the whole extractor non-recursive. -/
def extractDictKeys (kvs : List (String × PyVal)) : List String → Option String
  | [] => Option.none
  | key :: rest =>
    match dictLookupPy kvs key with
    | Option.none => extractDictKeys kvs rest
    | some v =>
      if key == "results" then
        match v with
        | PyVal.pylist items => some (extractList items)
        | _ =>
          if v.truthy then some (pyTake v.pystr_of 1000)
          else extractDictKeys kvs rest
      else
        if v.truthy then some (pyTake v.pystr_of 1000)
        else extractDictKeys kvs rest

/-- `extract_content_from_search_result` (graph.py:112-147). -/
def extract_content_from_search_result (result : PyVal) : String :=
  match result with
  | PyVal.pynone => ""
  | PyVal.pystr s => pyTake s 1000
  | PyVal.pylist items => extractList items
  | PyVal.pydict kvs =>
    match extractDictKeys kvs
        ["content", "text", "snippet", "description", "summary", "results"] with
    | some out => out
    | Option.none => pyTake (PyVal.pydict kvs).pystr_of 1000
  | other => pyTake other.pystr_of 1000

/-- The summary produced for one entry of `search_results`
(graph.py:154-190).  `llmOut q content` is the outcome of the `llm.invoke`
call for that entry. -/
def summarizeChunk (llmOut : String → String → Except String String)
    (chunk : SearchEntry) : String :=
  match chunk.error with
  | some err =>
    "Unable to retrieve information for: " ++ chunk.question ++
      " (Error: " ++ err ++ ")"
  | Option.none =>
    let content := extract_content_from_search_result chunk.result
    if content == "" || (pyStrip content).length < 10 then
      "No relevant information found for: " ++ chunk.question
    else
      match llmOut chunk.question content with
      | Except.ok summary => "Q: " ++ chunk.question ++ "\nA: " ++ summary
      | Except.error _ => "Error processing: " ++ chunk.question

/-- `summarize_chunks` (graph.py:149-199). -/
def summarize_chunks (llmOut : String → String → Except String String)
    (dur : Nat) (s : AnalysisState) : AnalysisState :=
  { s with
    summarized_chunks := s.search_results.map (summarizeChunk llmOut),
    processing_time := dictInsert s.processing_time "summarization" dur }

/-- The first maximal run of digits in a character list
(`re.findall(r"\d+", ...)[0]` when a digit exists). -/
def firstDigitRun : List Char → Option (List Char)
  | [] => Option.none
  | c :: rest =>
    if c.isDigit then some (c :: rest.takeWhile Char.isDigit)
    else firstDigitRun rest

/-- The numeric value of a digit run (`int(numbers[0])`). -/
def digitsToNat (ds : List Char) : Nat :=
  ds.foldl (fun acc c => acc * 10 + (c.toNat - 48)) 0

/-- The score-extraction scan of `critic_node` (graph.py:236-244):
default 6, first line whose stripped lowercase form starts with
`"score:"`, first digit run after the colon, capped at 10. -/
def extract_score (result : String) : Int :=
  match (pySplitLines result).find?
      (fun line => pyStartsWith (pyLower (pyStrip line)) "score:") with
  | Option.none => 6
  | some line =>
    match firstDigitRun (pyStrip (afterFirstColon line)).data with
    | Option.none => 6
    | some ds => min (Int.ofNat (digitsToNat ds)) 10

/-- `critic_node` (graph.py:201-257). -/
def critic_node (llmOut : Except String String) (dur : Nat)
    (s : AnalysisState) : AnalysisState :=
  match llmOut with
  | Except.ok result =>
    { s with
      critic_score := some (extract_score result),
      critic_feedback := some (pyStrip result),
      processing_time := dictInsert s.processing_time "critic" dur }
  | Except.error _ =>
    { s with
      critic_score := some 6,
      critic_feedback := some "Error in evaluation" }

/-- `score_based_decision` (graph.py:259-271). -/
def score_based_decision (s : AnalysisState) : String :=
  let score := s.critic_score.getD 0
  let retry_count := s.retry_count.getD 0
  let sufficient_score := s.target_score.getD 6
  let max_retries := s.max_retries.getD 5
  if score ≥ sufficient_score ∨ retry_count ≥ max_retries then "good_summary"
  else "poor_summary"

/-- `synthesize_final` (graph.py:273-313). -/
def synthesize_final (llmOut : Except String String) (dur : Nat)
    (s : AnalysisState) : AnalysisState :=
  match llmOut with
  | Except.ok answer =>
    { s with
      final_answer := some answer,
      processing_time := dictInsert s.processing_time "synthesis" dur }
  | Except.error _ =>
    { s with final_answer := some "Error generating final analysis" }

/-- `plan_subquestions_refined` (graph.py:356-396): same parse and
padding as the initial planner, no timing entry, and on a raised
language call it returns the incoming state unchanged. -/
def plan_subquestions_refined (llmOut : Except String String)
    (s : AnalysisState) : AnalysisState :=
  match llmOut with
  | Except.ok output =>
    { s with sub_questions := ensureThree (parseNumbered output) s.user_input }
  | Except.error _ => s

/-- The fixed enhancement suffixes of `modify_search_terms`. -/
def enhancements : List String :=
  [" financial results earnings revenue",
   " stock performance market cap valuation",
   " quarterly report Q1 Q2 Q3 Q4 annual"]

/-- `modify_search_terms` (graph.py:398-418): positional suffixes, with
the generic suffix for indices beyond the enhancement list
(`enhancements.get? i = some e` exactly when `i < len(enhancements)`). -/
def modify_search_terms (s : AnalysisState) : AnalysisState :=
  { s with
    sub_questions := s.sub_questions.enum.map
      (fun p =>
        match enhancements.get? p.1 with
        | some e => p.2 ++ e
        | Option.none => p.2 ++ " latest news update") }

/-- `broaden_search_scope` (graph.py:420-432). -/
def broaden_search_scope (s : AnalysisState) : AnalysisState :=
  { s with
    sub_questions :=
      [s.user_input ++ " news recent developments",
       s.user_input ++ " financial performance overview",
       s.user_input ++ " market analysis investor sentiment"] }

/-- `retry_retrieval` (graph.py:315-354).  `llmOut` is the outcome of
the refine planner's language call (consulted only on the `retry_count
< 3` branch); `dur` the measured elapsed time of the retry preparation. -/
def retry_retrieval (llmOut : Except String String) (dur : Nat)
    (s : AnalysisState) : AnalysisState :=
  let retry_count := s.retry_count.getD 0
  let max_retries := s.max_retries.getD 5
  if retry_count ≥ max_retries then
    { s with
      final_answer := some ("Maximum retries (" ++ toString max_retries ++
        ") reached. Analysis based on available information."),
      max_retries_reached := some true }
  else
    let new_state : AnalysisState := { s with retry_count := some (retry_count + 1) }
    let new_state :=
      if retry_count < 3 then plan_subquestions_refined llmOut new_state
      else if retry_count < 6 then modify_search_terms new_state
      else broaden_search_scope new_state
    { new_state with
      processing_time := dictInsert new_state.processing_time
        ("retry_" ++ toString (retry_count + 1)) dur }

/-- The nodes of the compiled workflow graph
(`create_financial_analysis_graph`, graph.py:434-467), plus `done` for
langgraph's `END` and `invalid` for the impossible case of the
conditional-edge map receiving a key other than `"good_summary"` /
`"poor_summary"`. -/
inductive Node where
  | planner
  | retriever
  | summarizer
  | critic
  | synthesizer
  | retryNode
  | done
  | invalid
deriving Repr, DecidableEq

/-- The external world of one run: every language-capability answer,
search answer, batch outcome and measured duration the run can consume.
Per-cycle oracles are indexed by the state's current `retry_count`
(read with the source's `state.get("retry_count", 0)` default), which
uniquely identifies the cycle since it starts at 0 and is incremented
exactly by the retry node. -/
structure Oracles where
  planOut : Except String String
  planDur : Nat
  searchOut : Int → String → Nat → Except String PyVal
  batchError : Int → Option String
  retrievalDur : Int → Nat
  summOut : Int → String → String → Except String String
  summDur : Int → Nat
  criticOut : Int → Except String String
  criticDur : Int → Nat
  retryOut : Int → Except String String
  retryDur : Int → Nat
  synthOut : Except String String
  synthDur : Nat

/-- The state's current retry count as read everywhere in the source:
`state.get("retry_count", 0)`. -/
def rcD (s : AnalysisState) : Int := s.retry_count.getD 0

/-- The initial state built by `analyze_stock_question`
(graph.py:474-481). -/
def initial_state (question purpose : String)
    (target_score : Int := 6) (max_retries : Int := 5) : AnalysisState :=
  { user_input := question,
    purpose := purpose,
    retry_count := some 0,
    target_score := some target_score,
    max_retries := some max_retries,
    processing_time := [] }

/-- One transition of the compiled graph: execute the current node on
the current state and follow its (conditional) outgoing edge
(graph.py:439-465). -/
def step (o : Oracles) : Node × AnalysisState → Node × AnalysisState
  | (Node.planner, s) => (Node.retriever, plan_subquestions o.planOut o.planDur s)
  | (Node.retriever, s) =>
    (Node.summarizer,
      retrieve_each (o.searchOut (rcD s)) (o.batchError (rcD s))
        (o.retrievalDur (rcD s)) s)
  | (Node.summarizer, s) =>
    (Node.critic, summarize_chunks (o.summOut (rcD s)) (o.summDur (rcD s)) s)
  | (Node.critic, s) =>
    let s2 := critic_node (o.criticOut (rcD s)) (o.criticDur (rcD s)) s
    let d := score_based_decision s2
    (if d = "good_summary" then Node.synthesizer
     else if d = "poor_summary" then Node.retryNode
     else Node.invalid, s2)
  | (Node.synthesizer, s) => (Node.done, synthesize_final o.synthOut o.synthDur s)
  | (Node.retryNode, s) =>
    (Node.retriever, retry_retrieval (o.retryOut (rcD s)) (o.retryDur (rcD s)) s)
  | (Node.done, s) => (Node.done, s)
  | (Node.invalid, s) => (Node.invalid, s)

/-- Run the graph for at most `fuel` transitions, stopping at `done`.
Returns the list of nodes executed (in order) and the final
node/state pair. -/
def runTrace (o : Oracles) : Nat → Node × AnalysisState → List Node × (Node × AnalysisState)
  | 0, ns => ([], ns)
  | fuel + 1, (n, s) =>
    if n = Node.done then ([], (n, s))
    else
      let ns2 := step o (n, s)
      let r := runTrace o fuel ns2
      (n :: r.1, r.2)

/-- `state.get("max_retries", 5)`. -/
def maxD (s : AnalysisState) : Int := s.max_retries.getD 5

/-- `state.get("target_score", 6)`. -/
def targD (s : AnalysisState) : Int := s.target_score.getD 6

/-- `state.get("critic_score", 0)`. -/
def scoreD (s : AnalysisState) : Int := s.critic_score.getD 0

/-- The concrete state used by the C4 witness: `retry_count = 3`, so
the new count 4 selects the modify-terms strategy (the 3/4 boundary). -/
def c4state : AnalysisState :=
  { user_input := "q", purpose := "p", retry_count := some 3,
    max_retries := some 5, sub_questions := ["A", "B"] }

/-- The concrete state used by the C10 witness: one prior cycle,
`retry_count = 1 < 3`, sub-questions from the previous cycle present. -/
def c10state : AnalysisState :=
  { user_input := "orig", purpose := "p", retry_count := some 1,
    max_retries := some 5, sub_questions := ["S1", "S2", "S3"] }

/-- Oracle for the C9 counterexample: `max_retries = 1`, critic always
scores 2 (below target), and the retrieval of cycle 0 takes 10 units
while the retrieval of cycle 1 takes 20. -/
def c9oracle : Oracles :=
  { planOut := Except.ok "1. A\n2. B\n3. C",
    planDur := 1,
    searchOut := fun _ _ _ => Except.ok (PyVal.pystr "plenty of content here"),
    batchError := fun _ => Option.none,
    retrievalDur := fun rc => if rc == 0 then 10 else 20,
    summOut := fun _ _ _ => Except.ok "sum",
    summDur := fun _ => 0,
    criticOut := fun _ => Except.ok "Score: 2",
    criticDur := fun _ => 0,
    retryOut := fun _ => Except.ok "1. X\n2. Y\n3. Z",
    retryDur := fun _ => 7,
    synthOut := Except.ok "final",
    synthDur := 0 }

/-- Oracle for the C1 evaluation: the critic always answers
`"Score: 2"` (below the target of 6), every search succeeds, and
`max_retries = 5` is exhausted. -/
def c1oracle : Oracles :=
  { planOut := Except.ok "1. A\n2. B\n3. C",
    planDur := 1,
    searchOut := fun _ _ _ => Except.ok (PyVal.pystr "solid content for the answer"),
    batchError := fun _ => Option.none,
    retrievalDur := fun _ => 2,
    summOut := fun _ _ _ => Except.ok "summary",
    summDur := fun _ => 3,
    criticOut := fun _ => Except.ok "Score: 2\nWeaknesses: thin",
    criticDur := fun _ => 4,
    retryOut := fun _ => Except.ok "1. X\n2. Y\n3. Z",
    retryDur := fun _ => 5,
    synthOut := Except.ok "final narrative",
    synthDur := 6 }

/-- The state after the retriever of the current cycle. -/
def cycleS1 (o : Oracles) (s : AnalysisState) : AnalysisState :=
  retrieve_each (o.searchOut (rcD s)) (o.batchError (rcD s))
    (o.retrievalDur (rcD s)) s

/-- The state after the summarizer of the current cycle. -/
def cycleS2 (o : Oracles) (s : AnalysisState) : AnalysisState :=
  summarize_chunks (o.summOut (rcD (cycleS1 o s)))
    (o.summDur (rcD (cycleS1 o s))) (cycleS1 o s)

/-- The state after the critic of the current cycle. -/
def cycleS3 (o : Oracles) (s : AnalysisState) : AnalysisState :=
  critic_node (o.criticOut (rcD (cycleS2 o s)))
    (o.criticDur (rcD (cycleS2 o s))) (cycleS2 o s)

/-- The state after the retry strategist, when the decision was
`"poor_summary"`. -/
def cycleS4 (o : Oracles) (s : AnalysisState) : AnalysisState :=
  retry_retrieval (o.retryOut (rcD (cycleS3 o s)))
    (o.retryDur (rcD (cycleS3 o s))) (cycleS3 o s)

@[simp] lemma plan_retry_count (o : Except String String) (d : Nat)
    (s : AnalysisState) : (plan_subquestions o d s).retry_count = s.retry_count := by
  cases o <;> rfl

@[simp] lemma plan_max_retries (o : Except String String) (d : Nat)
    (s : AnalysisState) : (plan_subquestions o d s).max_retries = s.max_retries := by
  cases o <;> rfl

@[simp] lemma plan_mrr (o : Except String String) (d : Nat)
    (s : AnalysisState) :
    (plan_subquestions o d s).max_retries_reached = s.max_retries_reached := by
  cases o <;> rfl

@[simp] lemma retrieve_retry_count (o : String → Nat → Except String PyVal)
    (b : Option String) (d : Nat) (s : AnalysisState) :
    (retrieve_each o b d s).retry_count = s.retry_count := by
  cases b <;> rfl

@[simp] lemma retrieve_max_retries (o : String → Nat → Except String PyVal)
    (b : Option String) (d : Nat) (s : AnalysisState) :
    (retrieve_each o b d s).max_retries = s.max_retries := by
  cases b <;> rfl

@[simp] lemma retrieve_target (o : String → Nat → Except String PyVal)
    (b : Option String) (d : Nat) (s : AnalysisState) :
    (retrieve_each o b d s).target_score = s.target_score := by
  cases b <;> rfl

@[simp] lemma retrieve_mrr (o : String → Nat → Except String PyVal)
    (b : Option String) (d : Nat) (s : AnalysisState) :
    (retrieve_each o b d s).max_retries_reached = s.max_retries_reached := by
  cases b <;> rfl

@[simp] lemma summarize_retry_count (o : String → String → Except String String)
    (d : Nat) (s : AnalysisState) :
    (summarize_chunks o d s).retry_count = s.retry_count := rfl

@[simp] lemma summarize_max_retries (o : String → String → Except String String)
    (d : Nat) (s : AnalysisState) :
    (summarize_chunks o d s).max_retries = s.max_retries := rfl

@[simp] lemma summarize_target (o : String → String → Except String String)
    (d : Nat) (s : AnalysisState) :
    (summarize_chunks o d s).target_score = s.target_score := rfl

@[simp] lemma summarize_mrr (o : String → String → Except String String)
    (d : Nat) (s : AnalysisState) :
    (summarize_chunks o d s).max_retries_reached = s.max_retries_reached := rfl

@[simp] lemma critic_retry_count (o : Except String String) (d : Nat)
    (s : AnalysisState) : (critic_node o d s).retry_count = s.retry_count := by
  cases o <;> rfl

@[simp] lemma critic_max_retries (o : Except String String) (d : Nat)
    (s : AnalysisState) : (critic_node o d s).max_retries = s.max_retries := by
  cases o <;> rfl

@[simp] lemma critic_target (o : Except String String) (d : Nat)
    (s : AnalysisState) : (critic_node o d s).target_score = s.target_score := by
  cases o <;> rfl

@[simp] lemma critic_mrr (o : Except String String) (d : Nat)
    (s : AnalysisState) :
    (critic_node o d s).max_retries_reached = s.max_retries_reached := by
  cases o <;> rfl

@[simp] lemma synthesize_mrr (o : Except String String) (d : Nat)
    (s : AnalysisState) :
    (synthesize_final o d s).max_retries_reached = s.max_retries_reached := by
  cases o <;> rfl

@[simp] lemma refined_retry_count (o : Except String String) (s : AnalysisState) :
    (plan_subquestions_refined o s).retry_count = s.retry_count := by
  cases o <;> rfl

@[simp] lemma refined_max_retries (o : Except String String) (s : AnalysisState) :
    (plan_subquestions_refined o s).max_retries = s.max_retries := by
  cases o <;> rfl

@[simp] lemma refined_mrr (o : Except String String) (s : AnalysisState) :
    (plan_subquestions_refined o s).max_retries_reached = s.max_retries_reached := by
  cases o <;> rfl

@[simp] lemma refined_processing_time (o : Except String String) (s : AnalysisState) :
    (plan_subquestions_refined o s).processing_time = s.processing_time := by
  cases o <;> rfl

lemma good_ne_poor : ("good_summary" : String) ≠ "poor_summary" := by decide

lemma decision_eq_good_iff (s : AnalysisState) :
    score_based_decision s = "good_summary" ↔
      scoreD s ≥ targD s ∨ rcD s ≥ maxD s := by
  unfold score_based_decision scoreD targD rcD maxD
  by_cases h : s.critic_score.getD 0 ≥ s.target_score.getD 6 ∨
      s.retry_count.getD 0 ≥ s.max_retries.getD 5
  · simp only [if_pos h]
    exact ⟨fun _ => h, fun _ => trivial⟩
  · simp only [if_neg h]
    exact ⟨fun hs => absurd hs.symm good_ne_poor, fun hh => absurd hh h⟩

lemma decision_eq_poor_iff (s : AnalysisState) :
    score_based_decision s = "poor_summary" ↔
      ¬(scoreD s ≥ targD s ∨ rcD s ≥ maxD s) := by
  unfold score_based_decision scoreD targD rcD maxD
  by_cases h : s.critic_score.getD 0 ≥ s.target_score.getD 6 ∨
      s.retry_count.getD 0 ≥ s.max_retries.getD 5
  · simp only [if_pos h]
    exact ⟨fun hs => absurd hs good_ne_poor, fun hh => absurd h hh⟩
  · simp only [if_neg h]
    exact ⟨fun _ => h, fun _ => trivial⟩

lemma decision_good_or_poor (s : AnalysisState) :
    score_based_decision s = "good_summary" ∨
      score_based_decision s = "poor_summary" := by
  by_cases h : scoreD s ≥ targD s ∨ rcD s ≥ maxD s
  · exact Or.inl ((decision_eq_good_iff s).mpr h)
  · exact Or.inr ((decision_eq_poor_iff s).mpr h)

lemma retry_retrieval_retry_count (out : Except String String) (dur : Nat)
    (s : AnalysisState) (h : rcD s < maxD s) :
    (retry_retrieval out dur s).retry_count = some (rcD s + 1) := by
  unfold retry_retrieval
  rw [if_neg (by exact not_le.mpr h)]
  split
  · simp [rcD]
  · split <;> simp [rcD, modify_search_terms, broaden_search_scope]

lemma retry_retrieval_max_retries (out : Except String String) (dur : Nat)
    (s : AnalysisState) (h : rcD s < maxD s) :
    (retry_retrieval out dur s).max_retries = s.max_retries := by
  unfold retry_retrieval
  rw [if_neg (by exact not_le.mpr h)]
  split
  · simp
  · split <;> simp [modify_search_terms, broaden_search_scope]

lemma retry_retrieval_mrr (out : Except String String) (dur : Nat)
    (s : AnalysisState) (h : rcD s < maxD s) :
    (retry_retrieval out dur s).max_retries_reached = s.max_retries_reached := by
  unfold retry_retrieval
  rw [if_neg (by exact not_le.mpr h)]
  split
  · simp
  · split <;> simp [modify_search_terms, broaden_search_scope]

lemma pyTake_le (s : String) (n : Nat) : (pyTake s n).length ≤ n := by
  show (s.data.take n).length ≤ n
  rw [List.length_take]
  exact min_le_left _ _

lemma ensureThree_length (qs : List String) (u : String) :
    (ensureThree qs u).length = 3 := by
  unfold ensureThree
  split
  · simp only [List.length_append, List.length_replicate]
    omega
  · split
    · simp only [List.length_take]
      omega
    · omega

/-- **C2.** The control decision after the critic stage is a strict
two-way branch: the decision returns `"good_summary"` exactly when
`critic_score >= target_score` or `retry_count >= max_retries` (fields
read with the source's `.get` defaults), returns `"poor_summary"`
exactly otherwise, has no other outcome, and the graph's conditional
edge sends `"good_summary"` to the synthesizer and `"poor_summary"` to
the retry node. -/
theorem c2_decision_strict_two_way (s : AnalysisState) :
    (score_based_decision s = "good_summary" ∨
      score_based_decision s = "poor_summary") ∧
    (score_based_decision s = "good_summary" ↔
      scoreD s ≥ targD s ∨ rcD s ≥ maxD s) ∧
    (score_based_decision s = "poor_summary" ↔
      ¬(scoreD s ≥ targD s ∨ rcD s ≥ maxD s)) ∧
    (∀ o : Oracles,
      (step o (Node.critic, s)).1 =
        if score_based_decision
            (critic_node (o.criticOut (rcD s)) (o.criticDur (rcD s)) s) =
            "good_summary"
        then Node.synthesizer else Node.retryNode) := by
  refine ⟨decision_good_or_poor s, decision_eq_good_iff s,
    decision_eq_poor_iff s, fun o => ?_⟩
  simp only [step]
  rcases decision_good_or_poor
      (critic_node (o.criticOut (rcD s)) (o.criticDur (rcD s)) s) with h | h
  · rw [h, if_pos rfl, if_pos rfl]
  · rw [h, if_neg (Ne.symm good_ne_poor), if_pos rfl,
      if_neg (Ne.symm good_ne_poor)]

/-- **C4.** When the ceiling is not hit, the retry strategist increments
`retry_count` and selects the strategy purely from the new value: new
counts 1–3 run the refine planner (same parse/padding, falling back to
the untouched previous sub-questions on a raised language call), 4–6
append the fixed positional suffixes (generic `" latest news update"`
beyond the third), 7 and above replace the sub-questions with the three
broader reformulations of the original question; the boundaries are
exactly 3/4 and 6/7. -/
theorem c4_retry_strategy_boundaries (out : Except String String) (dur : Nat)
    (s : AnalysisState) (h : rcD s < maxD s) :
    (retry_retrieval out dur s).retry_count = some (rcD s + 1) ∧
    (rcD s + 1 ≤ 3 →
      (retry_retrieval out dur s).sub_questions =
        (match out with
          | Except.ok output => ensureThree (parseNumbered output) s.user_input
          | Except.error _ => s.sub_questions)) ∧
    (4 ≤ rcD s + 1 → rcD s + 1 ≤ 6 →
      (retry_retrieval out dur s).sub_questions =
        s.sub_questions.enum.map (fun p =>
          match enhancements.get? p.1 with
          | some e => p.2 ++ e
          | Option.none => p.2 ++ " latest news update")) ∧
    (7 ≤ rcD s + 1 →
      (retry_retrieval out dur s).sub_questions =
        [s.user_input ++ " news recent developments",
         s.user_input ++ " financial performance overview",
         s.user_input ++ " market analysis investor sentiment"]) := by
  have hguard : ¬(s.retry_count.getD 0 ≥ s.max_retries.getD 5) := by
    unfold rcD maxD at h; omega
  refine ⟨retry_retrieval_retry_count out dur s h, ?_, ?_, ?_⟩
  · intro h3
    simp only [retry_retrieval]
    rw [if_neg hguard, if_pos (by unfold rcD at h3; omega)]
    cases out with
    | ok output => rfl
    | error e => rfl
  · intro h4 h6
    simp only [retry_retrieval]
    rw [if_neg hguard, if_neg (by unfold rcD at h4; omega),
      if_pos (by unfold rcD at h6; omega)]
    rfl
  · intro h7
    simp only [retry_retrieval]
    rw [if_neg hguard, if_neg (by unfold rcD at h7; omega),
      if_neg (by unfold rcD at h7; omega)]
    rfl

/-- Witness for C4 at `c4state`. -/
theorem c4_retry_strategy_boundaries_witness :
    rcD c4state < maxD c4state ∧
    ((retry_retrieval (Except.ok "1. X") 7 c4state).retry_count =
      some (rcD c4state + 1) ∧
    (rcD c4state + 1 ≤ 3 →
      (retry_retrieval (Except.ok "1. X") 7 c4state).sub_questions =
        (match (Except.ok "1. X" : Except String String) with
          | Except.ok output =>
            ensureThree (parseNumbered output) c4state.user_input
          | Except.error _ => c4state.sub_questions)) ∧
    (4 ≤ rcD c4state + 1 → rcD c4state + 1 ≤ 6 →
      (retry_retrieval (Except.ok "1. X") 7 c4state).sub_questions =
        c4state.sub_questions.enum.map (fun p =>
          match enhancements.get? p.1 with
          | some e => p.2 ++ e
          | Option.none => p.2 ++ " latest news update")) ∧
    (7 ≤ rcD c4state + 1 →
      (retry_retrieval (Except.ok "1. X") 7 c4state).sub_questions =
        [c4state.user_input ++ " news recent developments",
         c4state.user_input ++ " financial performance overview",
         c4state.user_input ++ " market analysis investor sentiment"])) :=
  ⟨by decide,
    c4_retry_strategy_boundaries (Except.ok "1. X") 7 c4state (by decide)⟩

/-- **C10.** When the refine strategy's language call raises, the
refined planner returns its incoming state unchanged — so inside
`retry_retrieval` (new counts 1–3) the previous cycle's sub-questions
are retained verbatim alongside the already-incremented `retry_count` —
whereas the initial planner's failure path replaces `sub_questions`
with the single-element list holding the original question. -/
theorem c10_refined_failure_preserves (e : String) (dur : Nat)
    (s : AnalysisState) :
    plan_subquestions_refined (Except.error e) s = s ∧
    (plan_subquestions (Except.error e) dur s).sub_questions =
      [s.user_input] ∧
    (rcD s < 3 → rcD s < maxD s →
      (retry_retrieval (Except.error e) dur s).sub_questions =
        s.sub_questions ∧
      (retry_retrieval (Except.error e) dur s).retry_count =
        some (rcD s + 1)) := by
  refine ⟨rfl, rfl, fun h3 h => ⟨?_, retry_retrieval_retry_count _ _ _ h⟩⟩
  simp only [retry_retrieval]
  rw [if_neg (by unfold rcD maxD at h; omega : ¬(s.retry_count.getD 0 ≥ s.max_retries.getD 5)),
    if_pos (by unfold rcD at h3; omega : s.retry_count.getD 0 < 3)]
  rfl

/-- Witness for C10 at `c10state`. -/
theorem c10_refined_failure_preserves_witness :
    (rcD c10state < 3 ∧ rcD c10state < maxD c10state) ∧
    (plan_subquestions_refined (Except.error "boom") c10state = c10state ∧
    (plan_subquestions (Except.error "boom") 0 c10state).sub_questions =
      [c10state.user_input] ∧
    (rcD c10state < 3 → rcD c10state < maxD c10state →
      (retry_retrieval (Except.error "boom") 0 c10state).sub_questions =
        c10state.sub_questions ∧
      (retry_retrieval (Except.error "boom") 0 c10state).retry_count =
        some (rcD c10state + 1))) :=
  ⟨⟨by decide, by decide⟩,
    c10_refined_failure_preserves "boom" 0 c10state⟩

/-- **C6.** The planner returns exactly 3 sub-questions for every
returned language output: parses of fewer than 3 numbered lines are
padded with copies of the original question, parses of more than 3 are
truncated to the first 3; a raised language call instead yields the
single-element list holding the original question. -/
theorem c6_planner_exactly_three (output e : String) (dur : Nat)
    (s : AnalysisState) :
    (plan_subquestions (Except.ok output) dur s).sub_questions.length = 3 ∧
    ((parseNumbered output).length < 3 →
      (plan_subquestions (Except.ok output) dur s).sub_questions =
        parseNumbered output ++
          List.replicate (3 - (parseNumbered output).length) s.user_input) ∧
    (3 < (parseNumbered output).length →
      (plan_subquestions (Except.ok output) dur s).sub_questions =
        (parseNumbered output).take 3) ∧
    (plan_subquestions (Except.error e) dur s).sub_questions =
      [s.user_input] := by
  refine ⟨ensureThree_length _ _, fun hlt => ?_, fun hgt => ?_, rfl⟩
  · show ensureThree (parseNumbered output) s.user_input = _
    unfold ensureThree
    rw [if_pos hlt]
  · show ensureThree (parseNumbered output) s.user_input = _
    unfold ensureThree
    rw [if_neg (by omega), if_pos hgt]

/-- Witness for C6: the output `"1. Alpha\n2. Beta"` parses to 2
sub-questions, exercising the padding branch. -/
theorem c6_planner_exactly_three_witness :
    (parseNumbered "1. Alpha\n2. Beta").length < 3 ∧
    ((plan_subquestions (Except.ok "1. Alpha\n2. Beta") 0
        c10state).sub_questions.length = 3 ∧
    ((parseNumbered "1. Alpha\n2. Beta").length < 3 →
      (plan_subquestions (Except.ok "1. Alpha\n2. Beta") 0
          c10state).sub_questions =
        parseNumbered "1. Alpha\n2. Beta" ++
          List.replicate (3 - (parseNumbered "1. Alpha\n2. Beta").length)
            c10state.user_input) ∧
    (3 < (parseNumbered "1. Alpha\n2. Beta").length →
      (plan_subquestions (Except.ok "1. Alpha\n2. Beta") 0
          c10state).sub_questions =
        (parseNumbered "1. Alpha\n2. Beta").take 3) ∧
    (plan_subquestions (Except.error "boom") 0 c10state).sub_questions =
      [c10state.user_input]) :=
  ⟨by decide, c6_planner_exactly_three "1. Alpha\n2. Beta" "boom" 0 c10state⟩

/-- **C8 counterexample.** The critique output `"Score: 0"` is parsed
to a critic score of 0, which lies outside the claimed range [1, 10]:
the extraction clamps only the upper end. -/
theorem c8_score_zero_counterexample :
    (critic_node (Except.ok "Score: 0") 0
      (initial_state "q" "p" 6 5)).critic_score = some 0 ∧
    (0 : Int) < 1 := by
  exact ⟨by decide, by decide⟩

/-- **C8 amended.** After every execution of the critic stage,
`critic_score` is an integer in [0, 10]: a parsed digit run after a
case-insensitive `"Score:"` prefix is clamped to a maximum of 10 (with
no lower clamp, so 0 is reachable), and when no such line or digit
exists, or the language call raises, the score defaults to 6. -/
theorem c8_score_range (out : Except String String) (e : String) (dur : Nat)
    (s : AnalysisState) :
    (∃ v : Int, (critic_node out dur s).critic_score = some v ∧
      0 ≤ v ∧ v ≤ 10) ∧
    (critic_node (Except.error e) dur s).critic_score = some 6 ∧
    (∀ result : String,
      (pySplitLines result).find?
          (fun line => pyStartsWith (pyLower (pyStrip line)) "score:") =
        Option.none →
      extract_score result = 6) := by
  refine ⟨?_, rfl, fun result hnone => ?_⟩
  · cases out with
    | error e2 => exact ⟨6, rfl, by omega, by omega⟩
    | ok result =>
      refine ⟨extract_score result, rfl, ?_, ?_⟩
      · unfold extract_score
        split
        · omega
        · split
          · omega
          · exact le_min (Int.ofNat_nonneg _) (by omega)
      · unfold extract_score
        split
        · omega
        · split
          · omega
          · exact min_le_right _ _
  · unfold extract_score
    rw [hnone]

/-- Witness for C8 at a concrete critique output with a score line
(`"Score: 8"`) and a concrete output with no score line. -/
theorem c8_score_range_witness :
    (pySplitLines "no score line here").find?
        (fun line => pyStartsWith (pyLower (pyStrip line)) "score:") =
      Option.none ∧
    ((∃ v : Int, (critic_node (Except.ok "Score: 8") 0
        c10state).critic_score = some v ∧ 0 ≤ v ∧ v ≤ 10) ∧
    (critic_node (Except.error "boom") 0 c10state).critic_score = some 6 ∧
    (∀ result : String,
      (pySplitLines result).find?
          (fun line => pyStartsWith (pyLower (pyStrip line)) "score:") =
        Option.none →
      extract_score result = 6)) :=
  ⟨by decide, c8_score_range (Except.ok "Score: 8") "boom" 0 c10state⟩

lemma joinSep_length_le (parts : List String)
    (h3 : parts.length ≤ 3) (h500 : ∀ p ∈ parts, p.length ≤ 500) :
    (joinSep "\n---\n" parts).length ≤ 1510 := by
  have hsep : ("\n---\n" : String).length = 5 := by decide
  match parts with
  | [] =>
    simp [joinSep]
  | [a] =>
    have ha := h500 a (by simp)
    simp only [joinSep]
    omega
  | [a, b] =>
    have ha := h500 a (by simp)
    have hb := h500 b (by simp)
    simp only [joinSep, String.length_append]
    omega
  | [a, b, c] =>
    have ha := h500 a (by simp)
    have hb := h500 b (by simp)
    have hc := h500 c (by simp)
    simp only [joinSep, String.length_append]
    omega
  | a :: b :: c :: d :: rest =>
    simp at h3

lemma extractPart_le (item : PyVal) (p : String)
    (h : extractPart item = some p) : p.length ≤ 500 := by
  cases item with
  | pydict kvs =>
    simp only [extractPart] at h
    cases hfc : firstContentValue kvs
        ["content", "text", "snippet", "description", "summary"] with
    | none => rw [hfc] at h; simp at h
    | some v =>
      rw [hfc] at h
      simp only [Option.map_some'] at h
      cases h
      exact pyTake_le _ _
  | pystr s =>
    simp only [extractPart] at h
    cases h
    exact pyTake_le _ _
  | pynone => simp [extractPart] at h
  | pybool b => simp [extractPart] at h
  | pyint n => simp [extractPart] at h
  | pylist l => simp [extractPart] at h

lemma extractList_le (items : List PyVal) :
    (extractList items).length ≤ 1510 := by
  apply joinSep_length_le
  · calc ((items.take 3).filterMap extractPart).length
        ≤ (items.take 3).length := List.length_filterMap_le _ _
      _ ≤ 3 := by rw [List.length_take]; exact min_le_left _ _
  · intro p hp
    rw [List.mem_filterMap] at hp
    obtain ⟨item, _, hit⟩ := hp
    exact extractPart_le item p hit

lemma extractDictKeys_le (kvs : List (String × PyVal)) :
    ∀ (keys : List String) (out : String),
      extractDictKeys kvs keys = some out → out.length ≤ 1510 := by
  intro keys
  induction keys with
  | nil => intro out h; simp [extractDictKeys] at h
  | cons key rest ih =>
    intro out h
    simp only [extractDictKeys] at h
    cases hlk : dictLookupPy kvs key with
    | none =>
      simp only [hlk] at h
      exact ih out h
    | some v =>
      simp only [hlk] at h
      split at h
      · split at h
        all_goals first
          | (cases h; exact extractList_le _)
          | (split at h
             · cases h
               exact le_trans (pyTake_le _ _) (by omega)
             · exact ih out h)
      · split at h
        · cases h
          exact le_trans (pyTake_le _ _) (by omega)
        · exact ih out h

lemma extract_bound (raw : PyVal) :
    (extract_content_from_search_result raw).length ≤ 1510 := by
  cases raw with
  | pynone => simp [extract_content_from_search_result]
  | pystr s =>
    exact le_trans (pyTake_le _ _) (by omega)
  | pylist items => exact extractList_le items
  | pydict kvs =>
    simp only [extract_content_from_search_result]
    cases hk : extractDictKeys kvs
        ["content", "text", "snippet", "description", "summary", "results"] with
    | none => exact le_trans (pyTake_le _ _) (by omega)
    | some out => exact extractDictKeys_le kvs _ out hk
  | pybool b => exact le_trans (pyTake_le _ _) (by omega)
  | pyint n => exact le_trans (pyTake_le _ _) (by omega)

set_option maxRecDepth 100000 in
/-- **C7 counterexample.** A list of three 500-character strings is
extracted to a 1510-character result (three 500-character parts joined
by two 5-character separators), exceeding the claimed 1000-character
bound; and the empty-string input — which is not null — also yields the
empty string, refuting "empty exactly when null". -/
theorem c7_bound_counterexample :
    1000 < (extract_content_from_search_result
        (PyVal.pylist
          [PyVal.pystr (String.mk (List.replicate 500 'a')),
           PyVal.pystr (String.mk (List.replicate 500 'a')),
           PyVal.pystr (String.mk (List.replicate 500 'a'))])).length ∧
    extract_content_from_search_result (PyVal.pystr "") = "" ∧
    PyVal.pystr "" ≠ PyVal.pynone := by
  refine ⟨by decide, rfl, fun h => PyVal.noConfusion h⟩

/-- **C7 amended.** The content extractor is total and returns at most
1510 characters (non-list branches are capped at 1000; the list branch
joins up to three 500-character parts with two 5-character separators);
it returns the empty string on null input (though not *only* then), and
for list inputs only the first 3 elements contribute. -/
theorem c7_extractor_bounds (raw : PyVal) (items : List PyVal) :
    (extract_content_from_search_result raw).length ≤ 1510 ∧
    extract_content_from_search_result PyVal.pynone = "" ∧
    extract_content_from_search_result (PyVal.pylist items) =
      extract_content_from_search_result (PyVal.pylist (items.take 3)) := by
  refine ⟨extract_bound raw, rfl, ?_⟩
  show extractList items = extractList (items.take 3)
  unfold extractList
  rw [List.take_take]
  norm_num

lemma fetchGo_question (oracle : Nat → Except String PyVal) (q : String) :
    ∀ (rest attempt : Nat), (fetchGo oracle q attempt rest).question = q := by
  intro rest
  induction rest with
  | zero =>
    intro attempt
    cases h : oracle attempt with
    | ok r => simp [fetchGo, h]
    | error e => simp [fetchGo, h]
  | succ rr ih =>
    intro attempt
    cases h : oracle attempt with
    | ok r => simp [fetchGo, h]
    | error e =>
      simp only [fetchGo, h]
      exact ih (attempt + 1)

/-- **C5.** The retriever returns exactly one entry per sub-question in
input order; each item independently resolves within its own 3 attempts
to either a success entry carrying the search payload or — when all 3
attempts raise — an error-string entry (carrying the last attempt's
message); and a failure of the whole batch call degrades to an empty
`search_results` instead of propagating. -/
theorem c5_retrieval_shape (oracle : String → Nat → Except String PyVal)
    (err : String) (dur : Nat) (s : AnalysisState) :
    (retrieve_each oracle Option.none dur s).search_results.length =
      s.sub_questions.length ∧
    (∀ i : Nat,
      ((retrieve_each oracle Option.none dur s).search_results.get? i).map
        SearchEntry.question = s.sub_questions.get? i) ∧
    (∀ q : String,
      (∃ a : Nat, a < 3 ∧ ∃ r, oracle q a = Except.ok r ∧
        fetch_with_retry (oracle q) q =
          { question := q, result := r, attempt := some (a + 1),
            error := Option.none }) ∨
      (∃ e0 e1 e2, oracle q 0 = Except.error e0 ∧
        oracle q 1 = Except.error e1 ∧ oracle q 2 = Except.error e2 ∧
        fetch_with_retry (oracle q) q =
          { question := q, result := PyVal.pynone, attempt := Option.none,
            error := some e2 })) ∧
    (retrieve_each oracle (some err) dur s).search_results = [] := by
  refine ⟨?_, ?_, ?_, rfl⟩
  · show (s.sub_questions.map _).length = _
    rw [List.length_map]
  · intro i
    show ((s.sub_questions.map
        (fun q => fetch_with_retry (oracle q) q)).get? i).map
      SearchEntry.question = s.sub_questions.get? i
    rw [List.get?_map]
    cases hq : s.sub_questions.get? i with
    | none => rfl
    | some q =>
      simp only [Option.map_some']
      exact congrArg some (fetchGo_question (oracle q) q 2 0)
  · intro q
    cases h0 : oracle q 0 with
    | ok r =>
      exact Or.inl ⟨0, by omega, r, h0, by
        simp only [fetch_with_retry, fetchGo, h0]⟩
    | error e0 =>
      cases h1 : oracle q 1 with
      | ok r =>
        exact Or.inl ⟨1, by omega, r, h1, by
          simp only [fetch_with_retry, fetchGo, h0, h1]⟩
      | error e1 =>
        cases h2 : oracle q 2 with
        | ok r =>
          exact Or.inl ⟨2, by omega, r, h2, by
            simp only [fetch_with_retry, fetchGo, h0, h1, h2]⟩
        | error e2 =>
          exact Or.inr ⟨e0, e1, e2, rfl, rfl, rfl, by
            simp only [fetch_with_retry, fetchGo, h0, h1, h2]⟩

lemma dictLookup_dictInsert_self (pt : List (String × Nat)) (k : String)
    (v : Nat) : dictLookup (dictInsert pt k v) k = some v := by
  induction pt with
  | nil => simp [dictInsert, dictLookup, List.find?]
  | cons p rest ih =>
    by_cases h : (p.1 == k) = true
    · simp [dictInsert, h, dictLookup, List.find?]
    · simp only [dictInsert, if_neg h, dictLookup, List.find?, h]
      exact ih

lemma dictLookup_dictInsert_other (pt : List (String × Nat)) (k : String)
    (v : Nat) (k2 : String) (h : k2 ≠ k) :
    dictLookup (dictInsert pt k v) k2 = dictLookup pt k2 := by
  have hkk2 : (k == k2) = false := by
    rw [beq_eq_false_iff_ne]
    exact Ne.symm h
  induction pt with
  | nil => simp [dictInsert, dictLookup, List.find?, hkk2]
  | cons p rest ih =>
    by_cases hp : (p.1 == k) = true
    · have hp1 : p.1 = k := by simpa using hp
      have hk2 : (p.1 == k2) = false := by
        rw [beq_eq_false_iff_ne, hp1]
        exact Ne.symm h
      simp [dictInsert, hp, dictLookup, List.find?, hk2, hkk2]
    · by_cases hq : (p.1 == k2) = true
      · simp [dictInsert, hp, dictLookup, List.find?, hq]
      · simp only [dictInsert, if_neg hp, dictLookup, List.find?, hq]
        exact ih

/-- **C9 counterexample.** With `max_retries = 1` and a critic that
always scores below target, the run executes the retriever twice, yet
the final timing dict holds a single `"retrieval"` entry carrying the
second cycle's duration (20): the first cycle's duration (10) was
overwritten, refuting the append-only / never-overwritten claim. -/
theorem c9_overwrite_counterexample :
    (runTrace c9oracle 20 (Node.planner, initial_state "q" "p" 6 1)).1.count
      Node.retriever = 2 ∧
    dictLookup (runTrace c9oracle 20
        (Node.planner, initial_state "q" "p" 6 1)).2.2.processing_time
      "retrieval" = some 20 ∧
    ((runTrace c9oracle 20
        (Node.planner, initial_state "q" "p" 6 1)).2.2.processing_time.filter
      (fun kv => kv.1 == "retrieval")).length = 1 := by
  exact ⟨by decide, by decide, by decide⟩

/-- **C9 amended.** Every stage execution records its elapsed time under
a stage-specific key by insert-or-replace: retry preparations use a key
suffixed with the new retry number and leave all other keys intact, but
fixed-key stages (such as retrieval) reuse the same key every cycle, so
a later cycle's entry replaces the earlier one's under that key. -/
theorem c9_timing_keys (s : AnalysisState)
    (oracle : String → Nat → Except String PyVal)
    (out : Except String String) (dur : Nat) (pt : List (String × Nat))
    (k k2 : String) (v : Nat) :
    (retrieve_each oracle Option.none dur s).processing_time =
      dictInsert s.processing_time "retrieval" dur ∧
    (rcD s < maxD s →
      (retry_retrieval out dur s).processing_time =
        dictInsert s.processing_time ("retry_" ++ toString (rcD s + 1)) dur) ∧
    dictLookup (dictInsert pt k v) k = some v ∧
    (k2 ≠ k → dictLookup (dictInsert pt k v) k2 = dictLookup pt k2) := by
  refine ⟨rfl, fun h => ?_, dictLookup_dictInsert_self pt k v,
    fun h2 => dictLookup_dictInsert_other pt k v k2 h2⟩
  simp only [retry_retrieval]
  rw [if_neg (by unfold rcD maxD at h; omega :
    ¬(s.retry_count.getD 0 ≥ s.max_retries.getD 5))]
  split
  · rw [refined_processing_time]
    rfl
  · split
    · rfl
    · rfl

/-- Witness for C9 at a concrete state with `retry_count = 3 <
max_retries = 5` and concrete dict arguments. -/
theorem c9_timing_keys_witness :
    (rcD c4state < maxD c4state ∧ ("b" : String) ≠ "a") ∧
    ((retrieve_each (fun _ _ => Except.error "down") Option.none 4
        c4state).processing_time =
      dictInsert c4state.processing_time "retrieval" 4 ∧
    (rcD c4state < maxD c4state →
      (retry_retrieval (Except.ok "1. X") 4 c4state).processing_time =
        dictInsert c4state.processing_time
          ("retry_" ++ toString (rcD c4state + 1)) 4) ∧
    dictLookup (dictInsert [("a", 1)] "a" 9) "a" = some 9 ∧
    (("b" : String) ≠ "a" →
      dictLookup (dictInsert [("a", 1)] "a" 9) "b" =
        dictLookup [("a", 1)] "b")) :=
  ⟨⟨by decide, by decide⟩,
    c9_timing_keys c4state (fun _ _ => Except.error "down")
      (Except.ok "1. X") 4 [("a", 1)] "a" "b" 9⟩

/-- **C1 (divergence).** In the run that exhausts its retries
(`max_retries = 5`, critic always below target) the terminal state has
`retry_count = 5` after 6 retrieval cycles — but `max_retries_reached`
was never written (the key is absent, which the serving layer reports
as `false`), contradicting the claim that it is `true` exactly in such
runs.  The final conjunct shows why the flag-setting branch of
`retry_retrieval` is dead under the graph's routing: whenever the
decision is not `"good_summary"` (the only case routed to the retry
node), `retry_count < max_retries` already holds, so the ceiling check
inside `retry_retrieval` can never fire. -/
theorem c1_exhausted_run_eval :
    (runTrace c1oracle 40 (Node.planner,
      initial_state "How is Apple performing?" "financial analysis" 6 5)).2.1 =
      Node.done ∧
    (runTrace c1oracle 40 (Node.planner,
      initial_state "How is Apple performing?" "financial analysis"
        6 5)).1.count Node.retriever = 6 ∧
    (runTrace c1oracle 40 (Node.planner,
      initial_state "How is Apple performing?" "financial analysis"
        6 5)).2.2.retry_count = some 5 ∧
    (runTrace c1oracle 40 (Node.planner,
      initial_state "How is Apple performing?" "financial analysis"
        6 5)).2.2.max_retries_reached = Option.none ∧
    (∀ s : AnalysisState,
      score_based_decision s = "good_summary" ∨ rcD s < maxD s) := by
  refine ⟨by decide, by decide, by decide, by decide, fun s => ?_⟩
  by_cases h : scoreD s ≥ targD s ∨ rcD s ≥ maxD s
  · exact Or.inl ((decision_eq_good_iff s).mpr h)
  · push_neg at h
    exact Or.inr h.2

lemma cycleS3_retry_count (o : Oracles) (s : AnalysisState) :
    (cycleS3 o s).retry_count = s.retry_count := by
  simp [cycleS3, cycleS2, cycleS1]

lemma cycleS3_max_retries (o : Oracles) (s : AnalysisState) :
    (cycleS3 o s).max_retries = s.max_retries := by
  simp [cycleS3, cycleS2, cycleS1]

lemma step_planner (o : Oracles) (s : AnalysisState) :
    step o (Node.planner, s) =
      (Node.retriever, plan_subquestions o.planOut o.planDur s) := rfl

lemma step_retriever (o : Oracles) (s : AnalysisState) :
    step o (Node.retriever, s) = (Node.summarizer, cycleS1 o s) := rfl

lemma step_summarizer_cycle (o : Oracles) (s : AnalysisState) :
    step o (Node.summarizer, cycleS1 o s) = (Node.critic, cycleS2 o s) := rfl

lemma step_critic_good (o : Oracles) (s : AnalysisState)
    (h : score_based_decision (cycleS3 o s) = "good_summary") :
    step o (Node.critic, cycleS2 o s) = (Node.synthesizer, cycleS3 o s) := by
  simp only [step]
  rw [show critic_node (o.criticOut (rcD (cycleS2 o s)))
      (o.criticDur (rcD (cycleS2 o s))) (cycleS2 o s) = cycleS3 o s from rfl,
    if_pos h]

lemma step_critic_poor (o : Oracles) (s : AnalysisState)
    (h : score_based_decision (cycleS3 o s) = "poor_summary") :
    step o (Node.critic, cycleS2 o s) = (Node.retryNode, cycleS3 o s) := by
  have hne : ¬(score_based_decision (cycleS3 o s) = "good_summary") := by
    rw [h]
    exact fun hc => good_ne_poor hc.symm
  simp only [step]
  rw [show critic_node (o.criticOut (rcD (cycleS2 o s)))
      (o.criticDur (rcD (cycleS2 o s))) (cycleS2 o s) = cycleS3 o s from rfl,
    if_neg hne, if_pos h]

lemma step_synth_cycle (o : Oracles) (s : AnalysisState) :
    step o (Node.synthesizer, cycleS3 o s) =
      (Node.done, synthesize_final o.synthOut o.synthDur (cycleS3 o s)) := rfl

lemma step_retry_cycle (o : Oracles) (s : AnalysisState) :
    step o (Node.retryNode, cycleS3 o s) = (Node.retriever, cycleS4 o s) := rfl

lemma runTrace_done (o : Oracles) (fuel : Nat) (s : AnalysisState) :
    runTrace o fuel (Node.done, s) = ([], (Node.done, s)) := by
  cases fuel <;> simp [runTrace]

lemma runTrace_succ (o : Oracles) (fuel : Nat) (n : Node) (s : AnalysisState)
    (h : ¬(n = Node.done)) :
    runTrace o (fuel + 1) (n, s) =
      ((n :: (runTrace o fuel (step o (n, s))).1),
        (runTrace o fuel (step o (n, s))).2) := by
  simp [runTrace, h]

lemma run_good_cycle (o : Oracles) (s : AnalysisState)
    (h : score_based_decision (cycleS3 o s) = "good_summary") :
    runTrace o 5 (Node.retriever, s) =
      ([Node.retriever, Node.summarizer, Node.critic, Node.synthesizer],
        (Node.done, synthesize_final o.synthOut o.synthDur (cycleS3 o s))) := by
  rw [show (5 : Nat) = 4 + 1 from rfl,
    runTrace_succ o 4 Node.retriever s (by decide), step_retriever,
    show (4 : Nat) = 3 + 1 from rfl,
    runTrace_succ o 3 Node.summarizer (cycleS1 o s) (by decide),
    step_summarizer_cycle,
    show (3 : Nat) = 2 + 1 from rfl,
    runTrace_succ o 2 Node.critic (cycleS2 o s) (by decide),
    step_critic_good o s h,
    show (2 : Nat) = 1 + 1 from rfl,
    runTrace_succ o 1 Node.synthesizer (cycleS3 o s) (by decide),
    step_synth_cycle, runTrace_done]

lemma run_poor_cycle (o : Oracles) (s : AnalysisState) (f : Nat)
    (h : score_based_decision (cycleS3 o s) = "poor_summary") :
    runTrace o (f + 4) (Node.retriever, s) =
      (Node.retriever :: Node.summarizer :: Node.critic :: Node.retryNode ::
        (runTrace o f (Node.retriever, cycleS4 o s)).1,
        (runTrace o f (Node.retriever, cycleS4 o s)).2) := by
  rw [show f + 4 = (f + 3) + 1 from rfl,
    runTrace_succ o (f + 3) Node.retriever s (by decide), step_retriever,
    show f + 3 = (f + 2) + 1 from rfl,
    runTrace_succ o (f + 2) Node.summarizer (cycleS1 o s) (by decide),
    step_summarizer_cycle,
    show f + 2 = (f + 1) + 1 from rfl,
    runTrace_succ o (f + 1) Node.critic (cycleS2 o s) (by decide),
    step_critic_poor o s h,
    runTrace_succ o f Node.retryNode (cycleS3 o s) (by decide),
    step_retry_cycle]

lemma loop_bound (o : Oracles) :
    ∀ (k : Nat) (s : AnalysisState) (r m : Int),
      s.retry_count = some r → s.max_retries = some m → m - r ≤ (k : Int) →
      ∃ fuel : Nat,
        (runTrace o fuel (Node.retriever, s)).2.1 = Node.done ∧
        (runTrace o fuel (Node.retriever, s)).1.count Node.retriever ≤
          k + 1 := by
  intro k
  induction k with
  | zero =>
    intro s r m hr hm hk
    have hd : score_based_decision (cycleS3 o s) = "good_summary" := by
      apply (decision_eq_good_iff _).mpr
      right
      simp only [rcD, maxD, cycleS3_retry_count, cycleS3_max_retries, hr, hm,
        Option.getD_some]
      omega
    refine ⟨5, ?_, ?_⟩
    · rw [run_good_cycle o s hd]
    · rw [run_good_cycle o s hd]
      show ([Node.retriever, Node.summarizer, Node.critic,
        Node.synthesizer]).count Node.retriever ≤ 0 + 1
      decide
  | succ k ih =>
    intro s r m hr hm hk
    rcases decision_good_or_poor (cycleS3 o s) with hd | hd
    · refine ⟨5, ?_, ?_⟩
      · rw [run_good_cycle o s hd]
      · rw [run_good_cycle o s hd]
        show ([Node.retriever, Node.summarizer, Node.critic,
          Node.synthesizer]).count Node.retriever ≤ k + 1 + 1
        have hc : ([Node.retriever, Node.summarizer, Node.critic,
            Node.synthesizer]).count Node.retriever = 1 := by decide
        omega
    · have hlt : r < m := by
        have hpn := (decision_eq_poor_iff _).mp hd
        push_neg at hpn
        have h2 := hpn.2
        simp only [rcD, maxD, cycleS3_retry_count, cycleS3_max_retries, hr, hm,
          Option.getD_some] at h2
        omega
      have hA : rcD (cycleS3 o s) = r := by
        simp [rcD, cycleS3_retry_count, hr]
      have hB : maxD (cycleS3 o s) = m := by
        simp [maxD, cycleS3_max_retries, hm]
      have hrc4 : (cycleS4 o s).retry_count = some (r + 1) := by
        unfold cycleS4
        rw [retry_retrieval_retry_count _ _ _ (by rw [hA, hB]; exact hlt), hA]
      have hm4 : (cycleS4 o s).max_retries = some m := by
        unfold cycleS4
        rw [retry_retrieval_max_retries _ _ _ (by rw [hA, hB]; exact hlt),
          cycleS3_max_retries, hm]
      obtain ⟨f, hf1, hf2⟩ := ih (cycleS4 o s) (r + 1) m hrc4 hm4 (by omega)
      refine ⟨f + 4, ?_, ?_⟩
      · rw [run_poor_cycle o s f hd]
        exact hf1
      · rw [run_poor_cycle o s f hd]
        show (Node.retriever :: Node.summarizer :: Node.critic ::
          Node.retryNode :: (runTrace o f (Node.retriever,
            cycleS4 o s)).1).count Node.retriever ≤ k + 1 + 1
        rw [List.count_cons_self,
          List.count_cons_of_ne (show Node.retriever ≠ Node.summarizer from
            by decide),
          List.count_cons_of_ne (show Node.retriever ≠ Node.critic from
            by decide),
          List.count_cons_of_ne (show Node.retriever ≠ Node.retryNode from
            by decide)]
        omega

/-- **C3.** From any initial state (caller-supplied `retry_count = 0`,
`max_retries = m ≥ 0`) and for every behavior of the oracles — critic
included — the graph run reaches `END` within `m + 1` executions of the
retriever; moreover `retry_count` is incremented exactly once per pass
through the retry node, and the decision returns `"good_summary"`
(forcing the synthesizing transition) as soon as
`retry_count >= max_retries`. -/
theorem c3_loop_terminates_bounded (o : Oracles) (q p : String)
    (ts m : Int) (hm : 0 ≤ m) :
    (∃ fuel : Nat,
      (runTrace o fuel (Node.planner, initial_state q p ts m)).2.1 =
        Node.done ∧
      (runTrace o fuel (Node.planner, initial_state q p ts m)).1.count
        Node.retriever ≤ m.toNat + 1) ∧
    (∀ (out : Except String String) (dur : Nat) (s : AnalysisState),
      rcD s < maxD s →
      (retry_retrieval out dur s).retry_count = some (rcD s + 1)) ∧
    (∀ s : AnalysisState, maxD s ≤ rcD s →
      score_based_decision s = "good_summary") := by
  refine ⟨?_, fun out dur s h => retry_retrieval_retry_count out dur s h,
    fun s h => (decision_eq_good_iff s).mpr (Or.inr h)⟩
  have hplan_rc :
      (plan_subquestions o.planOut o.planDur (initial_state q p ts m)).retry_count =
        some 0 := by
    rw [plan_retry_count]
    rfl
  have hplan_mr :
      (plan_subquestions o.planOut o.planDur (initial_state q p ts m)).max_retries =
        some m := by
    rw [plan_max_retries]
    rfl
  obtain ⟨f, hf1, hf2⟩ := loop_bound o m.toNat
    (plan_subquestions o.planOut o.planDur (initial_state q p ts m)) 0 m
    hplan_rc hplan_mr
    (by rw [Int.sub_zero]; exact Int.self_le_toNat m)
  refine ⟨f + 1, ?_, ?_⟩
  · rw [runTrace_succ o f Node.planner _ (by decide), step_planner]
    exact hf1
  · rw [runTrace_succ o f Node.planner _ (by decide), step_planner]
    show (Node.planner :: (runTrace o f (Node.retriever,
      plan_subquestions o.planOut o.planDur
        (initial_state q p ts m))).1).count Node.retriever ≤ m.toNat + 1
    rw [List.count_cons_of_ne (show Node.retriever ≠ Node.planner from
      by decide)]
    exact hf2

/-- Witness for C3 at `m = 0` with the C1 oracle. -/
theorem c3_loop_terminates_bounded_witness :
    (0 : Int) ≤ 0 ∧
    ((∃ fuel : Nat,
      (runTrace c1oracle fuel (Node.planner,
        initial_state "q" "p" 6 0)).2.1 = Node.done ∧
      (runTrace c1oracle fuel (Node.planner,
        initial_state "q" "p" 6 0)).1.count Node.retriever ≤
        (0 : Int).toNat + 1) ∧
    (∀ (out : Except String String) (dur : Nat) (s : AnalysisState),
      rcD s < maxD s →
      (retry_retrieval out dur s).retry_count = some (rcD s + 1)) ∧
    (∀ s : AnalysisState, maxD s ≤ rcD s →
      score_based_decision s = "good_summary")) :=
  ⟨by decide, c3_loop_terminates_bounded c1oracle "q" "p" 6 0 (by decide)⟩
